import Mathlib

/-!
Verification of the Salt state module `_states/jenkins_config.py`
(jenkins-formula repository).

The module mutates Jenkins XML configuration files through lxml `etree`.
We shallowly embed the module: lxml element trees become the inductive
type `XElem`; the in-place mutations of the Python code become pure
tree-to-tree functions; Python exceptions become an explicit `Except`
result (`PyExn` enumerates the exception classes that can arise); the
Salt-facing state functions `dockercloud` and `adminemail` are modelled
as functions from the on-disk file state and the `test` (dry-run) flag
to a returned Python value together with the log of file writes that
were performed (the list of byte strings handed to `ElementTree.write`).

An `ElementTree` object is identified with its root element, since the
module only ever accesses the tree through `tree.getroot()` and
`tree.write`.

The source file uses `wraps` (of `functools`) in its two decorators
without importing it; we model the functions as they are written, i.e.
as if the import were present, because every claim concerns the runtime
behaviour of the individual operations.
-/

/-- An lxml element: tag, attribute list (in document order), optional
text, and child elements.  `text = none` corresponds to the Python
`element.text is None`. -/
inductive XElem : Type where
  | mk (tag : String) (attrib : List (String × String)) (text : Option String)
      (children : List XElem)
deriving Repr

/-- The tag of an element (`element.tag`). -/
def XElem.tag : XElem → String
  | .mk t _ _ _ => t

/-- The attribute list of an element (`element.attrib`). -/
def XElem.attrib : XElem → List (String × String)
  | .mk _ a _ _ => a

/-- The text of an element (`element.text`). -/
def XElem.text : XElem → Option String
  | .mk _ _ s _ => s

/-- The child elements of an element (iteration order). -/
def XElem.children : XElem → List XElem
  | .mk _ _ _ cs => cs

/-- Replace the text of an element (`element.text = value`). -/
def XElem.setText (e : XElem) (s : Option String) : XElem :=
  match e with
  | .mk t a _ cs => .mk t a s cs

/-- Replace the child list of an element (in-place child mutation). -/
def XElem.setChildren (e : XElem) (cs : List XElem) : XElem :=
  match e with
  | .mk t a s _ => .mk t a s cs

/-- Render an attribute list as it appears inside a start tag. -/
def renderAttrs : List (String × String) → String
  | [] => ""
  | (k, v) :: rest => " " ++ k ++ "=\x22" ++ v ++ "\x22" ++ renderAttrs rest

mutual

/-- Model of the lxml pretty-printed serialization (`pretty_print=True`):
two-space indentation, every element on its own line.  All serializations
performed by the module pass `pretty_print=True`.  The documents built by
the module never mix text and child elements; for such mixed elements the
model keeps the text directly after the start tag. -/
def ppElem (ind : Nat) : XElem → String
  | XElem.mk t attrs txt cs =>
    let pad := String.mk (List.replicate ind ' ')
    match cs with
    | [] =>
      match txt with
      | none => pad ++ "<" ++ t ++ renderAttrs attrs ++ "/>\n"
      | some s => pad ++ "<" ++ t ++ renderAttrs attrs ++ ">" ++ s ++ "</" ++ t ++ ">\n"
    | _ :: _ =>
      pad ++ "<" ++ t ++ renderAttrs attrs ++ (match txt with | none => "" | some s => s)
        ++ ">\n" ++ ppChildren (ind + 2) cs ++ pad ++ "</" ++ t ++ ">\n"

/-- Serialization of a list of sibling elements. -/
def ppChildren (ind : Nat) : List XElem → String
  | [] => ""
  | c :: cs => ppElem ind c ++ ppChildren ind cs

end

/-- The XML declaration that `tree.write(..., xml_declaration=True,
encoding=UTF-8)` places at the start of the file. -/
def xml_decl_utf8 : String := "<?xml version=\x271.0\x27 encoding=\x27UTF-8\x27?>\n"

/-- Model of `_xmlpp(tree)` and of the inline
`etree.tostring(_tree, pretty_print=True)` calls: the pretty rendering,
with no XML declaration (the `tostring` default). -/
def xmlpp (tree : XElem) : String := ppElem 0 tree

/-- The bytes `_write_config` puts on disk:
`tree.write(fpath, pretty_print=True, xml_declaration=True, encoding=UTF-8)`
emits the XML declaration followed by the same pretty rendering that
`etree.tostring(tree, pretty_print=True)` produces. -/
def write_config_bytes (tree : XElem) : String := xml_decl_utf8 ++ ppElem 0 tree

/-- Replace the first list entry satisfying `p` by its image under `f`;
identity when no entry matches.  This captures the lxml pattern of
locating a child element and then mutating it in place: the mutation is
visible through the parent at the position where the child was found. -/
def updateFirst {α : Type} (p : α → Bool) (f : α → α) : List α → List α
  | [] => []
  | c :: cs => if p c then f c :: cs else c :: updateFirst p f cs

/-- Model of `etree.SubElement(parent, tagname, attrib=attrib)`: a new
empty child is appended to the parent.  (In Python the call also returns
the new child; callers of this model that need the child use the fact
that it is the last element of the new child list.) -/
def subelement (parent : XElem) (tagname : String) (attrib : List (String × String)) : XElem :=
  parent.setChildren (parent.children ++ [XElem.mk tagname attrib none []])

/-- Model of `_subelement_with_text(parent, tagname, text)`: create a new
sub-element of `parent` named `tagname` and set its text to `str(text)`
(callers pass the already stringified value). -/
def subelement_with_text (parent : XElem) (tagname : String) (text : String) : XElem :=
  parent.setChildren (parent.children ++ [XElem.mk tagname [] (some text) []])

/-- Model of the `_find_or_add(tagname, parent)` pattern followed by an
in-place mutation `f` of the element it returns: `parent.find(tagname)`
returns the first child with that tag if one exists, else a fresh empty
child is appended; the subsequent mutation of that child is visible in
the parent. -/
def mutate_found_child (tagname : String) (f : XElem → XElem) (parent : XElem) : XElem :=
  if parent.children.any (fun c => c.tag == tagname) then
    parent.setChildren (updateFirst (fun c => c.tag == tagname) f parent.children)
  else
    parent.setChildren (parent.children ++ [f (XElem.mk tagname [] none [])])

/-- The Python exceptions that the modelled code can raise. -/
inductive PyExn : Type where
  | ioError (msg : String)
  | parseError
  | valueError (msg : String)
  | typeError (msg : String)
  | nameError (msg : String)
deriving Repr, DecidableEq

/-- The tag of a Docker cloud entry (`dockercloud_tag` in `_insert_docker`). -/
def docker_cloud_tag : String := "com.nirima.jenkins.plugins.docker.DockerCloud"

/-- The match test of the search loop in `_insert_docker`:

    nametag = dockercloud.find(\x27name\x27)
    if nametag is not None and nametag.text == \x27name\x27:

Note that the source compares `nametag.text` with the literal string
`name` (the quoted field name), not with the caller-supplied `name`
parameter. -/
def docker_entry_matches (dc : XElem) : Bool :=
  match dc.children.find? (fun c => c.tag == "name") with
  | none => false
  | some nametag => nametag.text == some "name"

/-- The predicate selecting, among the children of `clouds`, the entries
the loop `for dockercloud in clouds.findall(dockercloud_tag)` iterates
over and that pass the match test. -/
def dockerPred (c : XElem) : Bool :=
  c.tag == docker_cloud_tag && docker_entry_matches c

/-- Lines 93-101 of the source: populate the located or newly created
entry with its field elements, in source order.  `connect_timeout`,
`read_timeout` and `capacity` are Python integers; `str` is applied by
`_subelement_with_text`. -/
def populate_docker_fields (name server_url : String) (connect_timeout read_timeout capacity : Int)
    (dc : XElem) : XElem :=
  let dc := subelement_with_text dc "name" name
  let dc := subelement dc "templates" [("class", "empty-list")]
  let dc := subelement_with_text dc "serverUrl" server_url
  let dc := subelement_with_text dc "connectTimeout" (toString connect_timeout)
  let dc := subelement_with_text dc "readTimeout" (toString read_timeout)
  let dc := subelement dc "credentialsId" []
  subelement_with_text dc "containerCap" (toString capacity)

/-- The search loop of `_insert_docker` followed by the field
population (lines 85-101), acting on the `clouds` element: the loop
iterates over `clouds.findall(dockercloud_tag)` and `break`s at the
first entry passing the match test; the `else` of the loop creates a
fresh entry carrying the `plugin=docker-plugin@<version>` attribute;
the field elements are then appended to the located or created entry. -/
def docker_clouds_mutation (name version server_url : String)
    (connect_timeout read_timeout capacity : Int) (clouds : XElem) : XElem :=
  if clouds.children.any dockerPred then
    clouds.setChildren
      (updateFirst dockerPred
        (populate_docker_fields name server_url connect_timeout read_timeout capacity)
        clouds.children)
  else
    clouds.setChildren
      (clouds.children ++
        [populate_docker_fields name server_url connect_timeout read_timeout capacity
          (XElem.mk docker_cloud_tag [("plugin", "docker-plugin@" ++ version)] none [])])

/-- The body of `_insert_docker` after the root-tag guard:
find-or-create `clouds` under the root, then run the search loop and
field population on it. -/
def insert_docker_unguarded (tree : XElem) (name version server_url : String)
    (connect_timeout read_timeout capacity : Int) : XElem :=
  mutate_found_child "clouds"
    (docker_clouds_mutation name version server_url connect_timeout read_timeout capacity)
    tree

/-- `_insert_docker`, including its `@_root_tag(hudson)` decorator: when
`tree.getroot().tag` is not `hudson` the wrapper raises `ValueError`
before any mutation; otherwise the body runs. -/
def insert_docker (tree : XElem) (name version server_url : String)
    (connect_timeout read_timeout capacity : Int) : Except PyExn XElem :=
  if tree.tag = "hudson" then
    .ok (insert_docker_unguarded tree name version server_url connect_timeout read_timeout capacity)
  else
    .error (.valueError "root element is not the <hudson> tag")

/-- The body of `_set_admin_email` after the root-tag guard:
`_find_or_add(adminAddress, root)` then `email.text = emailaddress`. -/
def set_admin_email_unguarded (tree : XElem) (emailaddress : String) : XElem :=
  mutate_found_child "adminAddress" (fun e => e.setText (some emailaddress)) tree

/-- `_set_admin_email`, including its
`@_root_tag(jenkins.model.JenkinsLocationConfiguration)` decorator. -/
def set_admin_email (tree : XElem) (emailaddress : String) : Except PyExn XElem :=
  if tree.tag = "jenkins.model.JenkinsLocationConfiguration" then
    .ok (set_admin_email_unguarded tree emailaddress)
  else
    .error (.valueError
      "root element is not the <jenkins.model.JenkinsLocationConfiguration> tag")

/-- The result dictionary built by `_empty_result` and returned by the
state functions.  `result` is the Salt tri-state: `some true` applied,
`some false` failed, `none` previewed.  The `changes` entry is created
as an empty dict and is never written to by the module; we model it as a
list of entries that stays empty. -/
structure ChangeResult : Type where
  changes : List (String × String)
  comment : String
  name : String
  result : Option Bool
deriving Repr, DecidableEq

/-- `_empty_result(name)`. -/
def empty_result (name : String) : ChangeResult :=
  { changes := [], comment := "", name := name, result := none }

/-- A Python-level call of `_empty_result` with an explicit positional
argument list: Python checks the arity before the body runs, and raises
`TypeError` when the single required argument `name` is missing. -/
def empty_result_call (args : List String) : Except PyExn ChangeResult :=
  match args with
  | [n] => .ok (empty_result n)
  | _ => .error (.typeError "_empty_result() takes exactly 1 argument (0 given)")

/-- The Python values the state function bodies pass to `str.join`:
either a string, or the generator object returned by
`difflib.unified_diff` (which carries the two line sequences it was
built from but is not itself a string). -/
inductive PyObj : Type where
  | str (s : String)
  | genObj (before after : String)
deriving Repr, DecidableEq

/-- `_changes_diff(before, after)`: `difflib.unified_diff` returns a
generator object, not a string or a list. -/
def changes_diff (before after : String) : PyObj :=
  .genObj before after

/-- Python `sep.join(items)`: concatenates string items with the
separator, and raises `TypeError` as soon as an item is not a string.
The state functions pass the `difflib` generator object straight into
the item list, so this call raises. -/
def pyJoinStr (sep : String) : List PyObj → Except PyExn String
  | [] => .ok ""
  | [.str s] => .ok s
  | .str s :: rest => (pyJoinStr sep rest).map (fun r => s ++ sep ++ r)
  | .genObj _ _ :: _ => .error (.typeError "expected string, generator found")

/-- What a state function invocation hands back to Salt: either the
result dictionary, or the inner `error_func` function object that
`_config_xmltree` returns without invoking on a load failure, or an
exception that propagates out of the call. -/
inductive PyVal : Type where
  | result (r : ChangeResult)
  | funcObject
  | exn (e : PyExn)
deriving Repr, DecidableEq

/-- The state of the configuration file named by `conffile` when the
invocation starts: missing from the Jenkins home directory, present but
not well-formed XML, or well-formed with the given root element (as
parsed with `remove_blank_text=True`). -/
inductive FileState : Type where
  | absent
  | malformed
  | parsed (tree : XElem)

/-- Combined model of `_get_config` and `_parse_config`: `_get_config`
raises `IOError` when `jenkins_home/fname` is not a file, and
`etree.parse` raises `XMLSyntaxError` (here `parseError`) on malformed
input; otherwise the parsed tree is returned. -/
def parse_config (fname : String) (file : FileState) : Except PyExn XElem :=
  match file with
  | .absent => .error (.ioError (fname ++ " not found in jenkins home directory"))
  | .malformed => .error .parseError
  | .parsed tree => .ok tree

/-- The `_config_xmltree` decorator: try `_parse_config(fname)`; on any
exception, build the local function `error_func` and return it WITHOUT
calling it (the source line is `return error_func`, not
`return error_func(...)`), so the caller receives a function object
instead of a result dictionary; on success, run the wrapped body on the
parsed tree. -/
def config_xmltree (fname : String) (file : FileState)
    (body : XElem → PyVal × List String) : PyVal × List String :=
  match parse_config fname file with
  | .error _ => (.funcObject, [])
  | .ok tree => body tree

/-- Line 154 of the source: `version = 0.15.0` (hard coded). -/
def docker_plugin_version : String := "0.15.0"

/-- Defaults of the `dockercloud` signature (line 143-144):
`connect_timeout=0, read_timeout=0, capacity=100`. -/
def connect_timeout_default : Int := 0

/-- Default of the `read_timeout` keyword of `dockercloud`. -/
def read_timeout_default : Int := 0

/-- Default of the `capacity` keyword of `dockercloud`. -/
def capacity_default : Int := 100

/-- Replace the `comment` entry of a result dictionary. -/
def ChangeResult.withComment (r : ChangeResult) (c : String) : ChangeResult :=
  ⟨r.changes, c, r.name, r.result⟩

/-- Replace the `result` entry of a result dictionary. -/
def ChangeResult.withResult (r : ChangeResult) (b : Option Bool) : ChangeResult :=
  ⟨r.changes, r.comment, r.name, b⟩

/-- The body of `dockercloud` (lines 154-169), run on the parsed tree.
The second component is the log of file writes performed.

In the dry-run branch, `ret[comment] = join(...)` passes the
`difflib` generator object as a join item, which raises `TypeError`.

In the apply branch, the call `_write_config(tree, conffile)` evaluates
the name `tree`, but no binding named `tree` is in scope in
`dockercloud` (the document is held by `_tree`), so Python raises
`NameError` while evaluating the arguments and no write happens. -/
def dockercloud_body (name server_url : String)
    (connect_timeout read_timeout capacity : Int) (conffile : String)
    (tree : XElem) (test : Bool) : PyVal × List String :=
  let ret := empty_result name
  let before := xmlpp tree
  match insert_docker tree name docker_plugin_version server_url
      connect_timeout read_timeout capacity with
  | .error e => (.exn e, [])
  | .ok tree2 =>
    let after := xmlpp tree2
    let changes := changes_diff before after
    let comment := "updated configuration file " ++ conffile
    if test then
      match pyJoinStr "\n" [.str ("would " ++ comment), .str "diff", changes] with
      | .error e => (.exn e, [])
      | .ok c => (.result ((ret.withComment c).withResult none), [])
    else
      (.exn (.nameError "name tree is not defined"), [])

/-- The state function `dockercloud`, wrapped by `_config_xmltree`. -/
def dockercloud_state (name server_url : String)
    (connect_timeout read_timeout capacity : Int) (conffile : String)
    (file : FileState) (test : Bool) : PyVal × List String :=
  config_xmltree conffile file
    (fun tree => dockercloud_body name server_url connect_timeout read_timeout capacity
      conffile tree test)

/-- The body of `adminemail` (lines 191-202), run on the parsed tree.
Its first statement is `ret = _empty_result()` with no argument, so the
arity check raises `TypeError` before anything else runs.  The remainder
of the body is modelled as written; note that even this remainder never
calls `_write_config`. -/
def adminemail_body (name _conffile : String) (tree : XElem) (test : Bool) :
    PyVal × List String :=
  match empty_result_call [] with
  | .error e => (.exn e, [])
  | .ok ret =>
    let comment := "set admin email to " ++ name
    let before := xmlpp tree
    match set_admin_email tree name with
    | .error e => (.exn e, [])
    | .ok tree2 =>
      let after := xmlpp tree2
      let changes := changes_diff before after
      if test then
        match pyJoinStr "\n" [.str ("would " ++ comment), .str "diff", changes] with
        | .error e => (.exn e, [])
        | .ok c => (.result (ret.withComment c), [])
      else
        match pyJoinStr "\n" [.str comment, .str "diff", changes] with
        | .error e => (.exn e, [])
        | .ok c => (.result ((ret.withComment c).withResult (some true)), [])

/-- The state function `adminemail`, wrapped by `_config_xmltree`.  The
`name` parameter doubles as the email address to set. -/
def adminemail_state (name conffile : String) (file : FileState) (test : Bool) :
    PyVal × List String :=
  config_xmltree conffile file (fun tree => adminemail_body name conffile tree test)

/-- The children of the first `clouds` child of the root ([] when the
root has no `clouds` child): the list of cloud entries the document
holds, in order. -/
def cloudsChildren (root : XElem) : List XElem :=
  match root.children.find? (fun c => c.tag == "clouds") with
  | none => []
  | some clouds => clouds.children

/-- Whether the search loop of `_insert_docker` finds an entry. -/
def hasMatchingEntry (root : XElem) : Bool :=
  (cloudsChildren root).any dockerPred

/-- Number of cloud-type entries under `clouds`. -/
def countCloudEntries (root : XElem) : Nat :=
  ((cloudsChildren root).filter (fun c => c.tag == docker_cloud_tag)).length

/-- Number of `adminAddress` children of the root. -/
def adminCount (root : XElem) : Nat :=
  (root.children.filter (fun c => c.tag == "adminAddress")).length

/-- The cloud entry the specification describes: the requested `name`,
an empty `templates` placeholder, `serverUrl`, `connectTimeout`,
`readTimeout`, an empty `credentialsId`, and `containerCap`, under the
`plugin=docker-plugin@<version>` attribute. -/
def docker_entry_spec (name version server_url : String)
    (connect_timeout read_timeout capacity : Int) : XElem :=
  XElem.mk docker_cloud_tag [("plugin", "docker-plugin@" ++ version)] none
    [ XElem.mk "name" [] (some name) [],
      XElem.mk "templates" [("class", "empty-list")] none [],
      XElem.mk "serverUrl" [] (some server_url) [],
      XElem.mk "connectTimeout" [] (some (toString connect_timeout)) [],
      XElem.mk "readTimeout" [] (some (toString read_timeout)) [],
      XElem.mk "credentialsId" [] none [],
      XElem.mk "containerCap" [] (some (toString capacity)) [] ]

/-- The tags of the field elements `_insert_docker` appends. -/
def docker_field_tags : List String :=
  ["name", "templates", "serverUrl", "connectTimeout", "readTimeout",
   "credentialsId", "containerCap"]

/-- Number of children of `e` whose tag is `ftag`. -/
def fieldCount (ftag : String) (e : XElem) : Nat :=
  (e.children.filter (fun x => x.tag == ftag)).length

theorem XElem.tag_setChildren (e : XElem) (cs : List XElem) : (e.setChildren cs).tag = e.tag := by
  cases e; rfl

theorem XElem.children_setChildren (e : XElem) (cs : List XElem) :
    (e.setChildren cs).children = cs := by
  cases e; rfl

theorem XElem.tag_setText (e : XElem) (s : Option String) : (e.setText s).tag = e.tag := by
  cases e; rfl

theorem XElem.text_setText (e : XElem) (s : Option String) : (e.setText s).text = s := by
  cases e; rfl

theorem find?_eq_none_of_any_eq_false {α : Type} (p : α → Bool) :
    ∀ l : List α, l.any p = false → l.find? p = none := by
  intro l h
  induction l with
  | nil => rfl
  | cons x xs ih =>
    simp only [List.any_cons, Bool.or_eq_false_iff] at h
    simp [List.find?, h.1, ih h.2]

theorem filter_eq_nil_of_any_eq_false {α : Type} (p : α → Bool) :
    ∀ l : List α, l.any p = false → l.filter p = [] := by
  intro l h
  induction l with
  | nil => rfl
  | cons x xs ih =>
    simp only [List.any_cons, Bool.or_eq_false_iff] at h
    simp [List.filter_cons, h.1, ih h.2]

theorem exists_find?_of_any_eq_true {α : Type} (p : α → Bool) :
    ∀ l : List α, l.any p = true → ∃ c, l.find? p = some c ∧ p c = true := by
  intro l h
  induction l with
  | nil => simp at h
  | cons x xs ih =>
    cases hx : p x with
    | true => exact ⟨x, by simp [List.find?, hx], hx⟩
    | false =>
      simp only [List.any_cons, hx, Bool.false_or] at h
      obtain ⟨c, hc, hpc⟩ := ih h
      exact ⟨c, by simp [List.find?, hx, hc], hpc⟩

theorem any_eq_true_of_find? {α : Type} (p : α → Bool) :
    ∀ l : List α, ∀ c, l.find? p = some c → l.any p = true := by
  intro l
  induction l with
  | nil => intro c h; simp [List.find?] at h
  | cons x xs ih =>
    intro c h
    cases hx : p x with
    | true => simp [List.any_cons, hx]
    | false =>
      simp only [List.find?, hx] at h
      simp [List.any_cons, hx, ih c h]

theorem find?_append_some {α : Type} (p : α → Bool) :
    ∀ l l2 : List α, ∀ c, l.find? p = some c → (l ++ l2).find? p = some c := by
  intro l l2
  induction l with
  | nil => intro c h; simp [List.find?] at h
  | cons x xs ih =>
    intro c h
    cases hx : p x with
    | true =>
      simp only [List.find?, hx] at h
      simp [List.find?, hx, h]
    | false =>
      simp only [List.find?, hx] at h
      simp [List.find?, hx, ih c h]

theorem find?_append_none {α : Type} (p : α → Bool) :
    ∀ l l2 : List α, l.find? p = none → (l ++ l2).find? p = l2.find? p := by
  intro l l2
  induction l with
  | nil => intro _; rfl
  | cons x xs ih =>
    intro h
    cases hx : p x with
    | true => simp [List.find?, hx] at h
    | false =>
      simp only [List.find?, hx] at h
      simp [List.find?, hx, ih h]

theorem find?_updateFirst {α : Type} (p : α → Bool) (f : α → α)
    (hf : ∀ x, p x = true → p (f x) = true) :
    ∀ l : List α, (updateFirst p f l).find? p = (l.find? p).map f := by
  intro l
  induction l with
  | nil => rfl
  | cons x xs ih =>
    cases hx : p x with
    | true => simp [updateFirst, hx, List.find?, hf x hx]
    | false => simp [updateFirst, hx, List.find?, ih]

theorem updateFirst_append_of_any_eq_false {α : Type} (p : α → Bool) (f : α → α) :
    ∀ l l2 : List α, l.any p = false → updateFirst p f (l ++ l2) = l ++ updateFirst p f l2 := by
  intro l l2
  induction l with
  | nil => intro _; rfl
  | cons x xs ih =>
    intro h
    simp only [List.any_cons, Bool.or_eq_false_iff] at h
    simp [updateFirst, h.1, ih h.2]

theorem any_eq_true_of_filter_eq_cons {α : Type} (p : α → Bool) :
    ∀ l : List α, ∀ c cs, l.filter p = c :: cs → l.any p = true := by
  intro l
  induction l with
  | nil => intro c cs h; simp at h
  | cons x xs ih =>
    intro c cs h
    cases hx : p x with
    | true => simp [List.any_cons, hx]
    | false =>
      rw [List.filter_cons, if_neg (by simp [hx])] at h
      simp [List.any_cons, hx, ih c cs h]

/-- The seven field elements `_insert_docker` appends to an entry. -/
def docker_field_elems (name server_url : String)
    (connect_timeout read_timeout capacity : Int) : List XElem :=
  [ XElem.mk "name" [] (some name) [],
    XElem.mk "templates" [("class", "empty-list")] none [],
    XElem.mk "serverUrl" [] (some server_url) [],
    XElem.mk "connectTimeout" [] (some (toString connect_timeout)) [],
    XElem.mk "readTimeout" [] (some (toString read_timeout)) [],
    XElem.mk "credentialsId" [] none [],
    XElem.mk "containerCap" [] (some (toString capacity)) [] ]

theorem populate_children (name server_url : String) (ct rt cap : Int) (e : XElem) :
    (populate_docker_fields name server_url ct rt cap e).children
      = e.children ++ docker_field_elems name server_url ct rt cap := by
  cases e
  simp [populate_docker_fields, subelement_with_text, subelement, docker_field_elems,
    XElem.setChildren, XElem.children]

theorem populate_tag (name server_url : String) (ct rt cap : Int) (e : XElem) :
    (populate_docker_fields name server_url ct rt cap e).tag = e.tag := by
  cases e; rfl

theorem populate_attrib (name server_url : String) (ct rt cap : Int) (e : XElem) :
    (populate_docker_fields name server_url ct rt cap e).attrib = e.attrib := by
  cases e; rfl

theorem populate_fresh_eq_spec (name version server_url : String) (ct rt cap : Int) :
    populate_docker_fields name server_url ct rt cap
        (XElem.mk docker_cloud_tag [("plugin", "docker-plugin@" ++ version)] none [])
      = docker_entry_spec name version server_url ct rt cap := rfl

theorem dockerPred_populate (name server_url : String) (ct rt cap : Int) (x : XElem)
    (hx : dockerPred x = true) :
    dockerPred (populate_docker_fields name server_url ct rt cap x) = true := by
  simp only [dockerPred, Bool.and_eq_true] at hx ⊢
  refine ⟨by rw [populate_tag]; exact hx.1, ?_⟩
  have hm := hx.2
  unfold docker_entry_matches at hm ⊢
  rw [populate_children]
  cases hfx : x.children.find? (fun c => c.tag == "name") with
  | none => rw [hfx] at hm; simp at hm
  | some nt =>
    rw [hfx] at hm
    rw [find?_append_some _ _ _ _ hfx]
    exact hm

theorem tag_docker_clouds_mutation (name version server_url : String) (ct rt cap : Int)
    (x : XElem) :
    (docker_clouds_mutation name version server_url ct rt cap x).tag = x.tag := by
  unfold docker_clouds_mutation
  by_cases hb : x.children.any dockerPred = true
  · rw [if_pos hb, XElem.tag_setChildren]
  · rw [if_neg hb, XElem.tag_setChildren]

/-- Effect of `_insert_docker` on the cloud entry list when the search
loop finds no entry: exactly the specified fresh entry is appended. -/
theorem cloudsChildren_insert_no_match (root : XElem) (name version server_url : String)
    (ct rt cap : Int) (hnm : hasMatchingEntry root = false) :
    cloudsChildren (insert_docker_unguarded root name version server_url ct rt cap)
      = cloudsChildren root ++ [docker_entry_spec name version server_url ct rt cap] := by
  unfold insert_docker_unguarded mutate_found_child
  cases hq : root.children.any (fun c => c.tag == "clouds") with
  | false =>
    rw [if_neg (by simp [hq])]
    have hfind : root.children.find? (fun c => c.tag == "clouds") = none :=
      find?_eq_none_of_any_eq_false _ _ hq
    unfold cloudsChildren
    rw [XElem.children_setChildren, find?_append_none _ _ _ hfind, hfind]
    rfl
  | true =>
    rw [if_pos (by simp [hq])]
    obtain ⟨clouds0, hc0, _⟩ := exists_find?_of_any_eq_true _ _ hq
    have hpres : ∀ x : XElem, (x.tag == "clouds") = true →
        ((docker_clouds_mutation name version server_url ct rt cap x).tag == "clouds") = true := by
      intro x hx
      rw [tag_docker_clouds_mutation]; exact hx
    unfold cloudsChildren
    rw [XElem.children_setChildren, find?_updateFirst _ _ hpres, hc0]
    have hroot_clouds : cloudsChildren root = clouds0.children := by
      unfold cloudsChildren; rw [hc0]
    have hnm0 : clouds0.children.any dockerPred = false := by
      rw [← hroot_clouds]; exact hnm
    show (docker_clouds_mutation name version server_url ct rt cap clouds0).children
        = clouds0.children ++ [docker_entry_spec name version server_url ct rt cap]
    unfold docker_clouds_mutation
    rw [if_neg (by simp [hnm0]), XElem.children_setChildren, populate_fresh_eq_spec]

/-- Effect of `_insert_docker` on the cloud entry list when the search
loop finds an entry: no entry is added, and the first matching entry has
the field elements appended to it. -/
theorem cloudsChildren_insert_match (root : XElem) (name version server_url : String)
    (ct rt cap : Int) (c : XElem)
    (hfind : (cloudsChildren root).find? dockerPred = some c) :
    cloudsChildren (insert_docker_unguarded root name version server_url ct rt cap)
      = updateFirst dockerPred (populate_docker_fields name server_url ct rt cap)
          (cloudsChildren root)
  ∧ (cloudsChildren (insert_docker_unguarded root name version server_url ct rt cap)).find?
        dockerPred
      = some (populate_docker_fields name server_url ct rt cap c) := by
  cases hc0 : root.children.find? (fun c => c.tag == "clouds") with
  | none =>
    exfalso
    unfold cloudsChildren at hfind
    rw [hc0] at hfind
    simp [List.find?] at hfind
  | some clouds0 =>
    have hroot_clouds : cloudsChildren root = clouds0.children := by
      unfold cloudsChildren; rw [hc0]
    have hq : root.children.any (fun c => c.tag == "clouds") = true :=
      any_eq_true_of_find? _ _ _ hc0
    have hb : clouds0.children.any dockerPred = true := by
      apply any_eq_true_of_find? _ _ c
      rw [← hroot_clouds]; exact hfind
    have hpres : ∀ x : XElem, (x.tag == "clouds") = true →
        ((docker_clouds_mutation name version server_url ct rt cap x).tag == "clouds") = true := by
      intro x hx
      rw [tag_docker_clouds_mutation]; exact hx
    have hmain :
        cloudsChildren (insert_docker_unguarded root name version server_url ct rt cap)
          = updateFirst dockerPred (populate_docker_fields name server_url ct rt cap)
              clouds0.children := by
      unfold insert_docker_unguarded mutate_found_child
      rw [if_pos (by simp [hq])]
      unfold cloudsChildren
      rw [XElem.children_setChildren, find?_updateFirst _ _ hpres, hc0]
      show (docker_clouds_mutation name version server_url ct rt cap clouds0).children
          = updateFirst dockerPred (populate_docker_fields name server_url ct rt cap)
              clouds0.children
      unfold docker_clouds_mutation
      rw [if_pos hb, XElem.children_setChildren]
    refine ⟨by rw [hmain, hroot_clouds], ?_⟩
    rw [hmain]
    rw [find?_updateFirst _ _ (fun x hx => dockerPred_populate name server_url ct rt cap x hx)]
    rw [← hroot_clouds, hfind]
    rfl

theorem tag_mutate_found_child (tagname : String) (f : XElem → XElem) (parent : XElem) :
    (mutate_found_child tagname f parent).tag = parent.tag := by
  unfold mutate_found_child
  by_cases h : parent.children.any (fun c => c.tag == tagname) = true
  · rw [if_pos h, XElem.tag_setChildren]
  · rw [if_neg h, XElem.tag_setChildren]

theorem children_mutate_found_child_pos (tagname : String) (f : XElem → XElem) (parent : XElem)
    (h : parent.children.any (fun c => c.tag == tagname) = true) :
    (mutate_found_child tagname f parent).children
      = updateFirst (fun c => c.tag == tagname) f parent.children := by
  unfold mutate_found_child; rw [if_pos h, XElem.children_setChildren]

theorem children_mutate_found_child_neg (tagname : String) (f : XElem → XElem) (parent : XElem)
    (h : ¬ parent.children.any (fun c => c.tag == tagname) = true) :
    (mutate_found_child tagname f parent).children
      = parent.children ++ [f (XElem.mk tagname [] none [])] := by
  unfold mutate_found_child; rw [if_neg h, XElem.children_setChildren]

theorem length_filter_updateFirst {α : Type} (pT q : α → Bool) (f : α → α)
    (hf : ∀ x, pT (f x) = pT x) :
    ∀ l : List α, ((updateFirst q f l).filter pT).length = (l.filter pT).length := by
  intro l
  induction l with
  | nil => rfl
  | cons x xs ih =>
    cases hq : q x with
    | true =>
      simp only [updateFirst]
      rw [if_pos hq, List.filter_cons, List.filter_cons, hf x]
      cases hp : pT x <;> simp
    | false =>
      simp only [updateFirst]
      rw [if_neg (by simp [hq]), List.filter_cons, List.filter_cons]
      cases hp : pT x <;> simp [ih]

theorem filter_updateFirst_singleton {α : Type} (p : α → Bool) (f : α → α)
    (hf : ∀ x, p x = true → p (f x) = true) :
    ∀ l : List α, l.any p = true → (l.filter p).length ≤ 1 →
      ∃ c, l.find? p = some c ∧ (updateFirst p f l).filter p = [f c] := by
  intro l
  induction l with
  | nil => intro h _; simp at h
  | cons x xs ih =>
    intro hany hlen
    cases hx : p x with
    | true =>
      refine ⟨x, by simp [List.find?, hx], ?_⟩
      have hxs : xs.filter p = [] := by
        rw [List.filter_cons, if_pos hx, List.length_cons] at hlen
        have h0 : (xs.filter p).length = 0 := by omega
        exact List.length_eq_zero.mp h0
      simp only [updateFirst]
      rw [if_pos hx, List.filter_cons, if_pos (hf x hx), hxs]
    | false =>
      rw [List.any_cons, hx, Bool.false_or] at hany
      rw [List.filter_cons, if_neg (by simp [hx])] at hlen
      obtain ⟨c, hc, hfil⟩ := ih hany hlen
      refine ⟨c, by simp [List.find?, hx, hc], ?_⟩
      simp only [updateFirst]
      rw [if_neg (by simp [hx]), List.filter_cons, if_neg (by simp [hx]), hfil]

theorem fieldCount_populate (ftag name server_url : String) (ct rt cap : Int) (c : XElem) :
    fieldCount ftag (populate_docker_fields name server_url ct rt cap c)
      = fieldCount ftag c
          + ((docker_field_elems name server_url ct rt cap).filter
              (fun x => x.tag == ftag)).length := by
  unfold fieldCount
  rw [populate_children, List.filter_append, List.length_append]

/-- A document that already holds a cloud entry named `build1`, used to
exercise the upsert path with the same requested name. -/
def c1_existing_entry : XElem :=
  XElem.mk docker_cloud_tag [("plugin", "docker-plugin@0.15.0")] none
    [XElem.mk "name" [] (some "build1") [],
     XElem.mk "serverUrl" [] (some "http://old:2376") []]

/-- `<hudson><clouds>` with the single entry named `build1`. -/
def c1_doc : XElem :=
  XElem.mk "hudson" [] none [XElem.mk "clouds" [] none [c1_existing_entry]]

/-- C1: the claimed upsert-by-name semantics does not hold on the code.
The search loop compares each existing entry's `name` text with the
literal string `name` instead of the caller-supplied name, so a document
already holding an entry named `build1` is not matched when `build1` is
requested again: the existing entry is left untouched and a second entry
is appended, giving two cloud entries where the claim requires one
updated in place and no new entry. -/
theorem C1_match_compares_literal_name :
    (insert_docker c1_doc "build1" docker_plugin_version "http://d:2376" 0 0 100).map
        countCloudEntries = Except.ok 2
  ∧ (insert_docker c1_doc "build1" docker_plugin_version "http://d:2376" 0 0 100).map
        cloudsChildren
      = Except.ok [c1_existing_entry,
          docker_entry_spec "build1" docker_plugin_version "http://d:2376" 0 0 100] :=
  ⟨rfl, rfl⟩

/-- C2: when the configuration file is absent or malformed, the wrapped
state functions do not return a ChangeResult with `result=false`: the
`_config_xmltree` decorator returns the inner `error_func` function
object without calling it.  No mutator runs and no write occurs (the
write log stays empty), but the claimed failure record is never
produced. -/
theorem C2_load_failure_returns_error_func (name server_url conffile : String)
    (ct rt cap : Int) (test : Bool) :
    dockercloud_state name server_url ct rt cap conffile FileState.absent test
        = (PyVal.funcObject, [])
  ∧ dockercloud_state name server_url ct rt cap conffile FileState.malformed test
        = (PyVal.funcObject, [])
  ∧ adminemail_state name conffile FileState.absent test = (PyVal.funcObject, [])
  ∧ adminemail_state name conffile FileState.malformed test = (PyVal.funcObject, []) :=
  ⟨rfl, rfl, rfl, rfl⟩

/-- C3: on a well-formed `hudson` document neither mode of `dockercloud`
behaves as claimed.  Dry-run raises `TypeError` (the `difflib` generator
object is passed to `str.join`) instead of returning `result=none`;
apply mode raises `NameError` (the write call references the unbound
name `tree`) before any write, instead of writing and returning
`result=true`.  The write log is empty in both modes. -/
theorem C3_mode_branches_crash (name server_url conffile : String) (ct rt cap : Int)
    (tree : XElem) (htag : tree.tag = "hudson") :
    dockercloud_state name server_url ct rt cap conffile (FileState.parsed tree) false
        = (PyVal.exn (PyExn.nameError "name tree is not defined"), [])
  ∧ dockercloud_state name server_url ct rt cap conffile (FileState.parsed tree) true
        = (PyVal.exn (PyExn.typeError "expected string, generator found"), []) := by
  have hok : insert_docker tree name docker_plugin_version server_url ct rt cap
      = Except.ok (insert_docker_unguarded tree name docker_plugin_version server_url
          ct rt cap) := by
    unfold insert_docker; rw [if_pos htag]
  constructor
  · show dockercloud_body name server_url ct rt cap conffile tree false = _
    unfold dockercloud_body
    rw [hok]
    rfl
  · show dockercloud_body name server_url ct rt cap conffile tree true = _
    unfold dockercloud_body
    rw [hok]
    rfl

/-- Witness for C3 at the concrete document `<hudson/>`. -/
theorem C3_mode_branches_crash_witness :
    (XElem.mk "hudson" [] none []).tag = "hudson"
  ∧ (dockercloud_state "build1" "http://d:2376" 0 0 100 "config.xml"
        (FileState.parsed (XElem.mk "hudson" [] none [])) false
        = (PyVal.exn (PyExn.nameError "name tree is not defined"), [])
      ∧ dockercloud_state "build1" "http://d:2376" 0 0 100 "config.xml"
        (FileState.parsed (XElem.mk "hudson" [] none [])) true
        = (PyVal.exn (PyExn.typeError "expected string, generator found"), [])) :=
  ⟨rfl, C3_mode_branches_crash "build1" "http://d:2376" "config.xml" 0 0 100
      (XElem.mk "hudson" [] none []) rfl⟩

/-- C4: `_subelement_with_text` is append-only (not idempotent): one
call appends exactly one new child with the given tag and text, and two
successive calls on the same parent leave two siblings with the same
tag.  Consequently, when the search loop of `_insert_docker` does match
an existing entry, re-running the field population appends a fresh copy
of every field element to it: each field tag gains exactly one more
occurrence, while no new cloud entry is created. -/
theorem C4_append_only_fields
    (parent : XElem) (tagname txt txt2 : String)
    (root : XElem) (name server_url : String) (ct rt cap : Int) (c : XElem)
    (hroot : root.tag = "hudson")
    (hfind : (cloudsChildren root).find? dockerPred = some c) :
    (subelement_with_text parent tagname txt).children
        = parent.children ++ [XElem.mk tagname [] (some txt) []]
  ∧ (subelement_with_text (subelement_with_text parent tagname txt) tagname txt2).children
        = parent.children
            ++ [XElem.mk tagname [] (some txt) [], XElem.mk tagname [] (some txt2) []]
  ∧ ∃ t e, insert_docker root name docker_plugin_version server_url ct rt cap = Except.ok t
      ∧ countCloudEntries t = countCloudEntries root
      ∧ (cloudsChildren t).find? dockerPred = some e
      ∧ ∀ ftag ∈ docker_field_tags, fieldCount ftag e = fieldCount ftag c + 1 := by
  refine ⟨?_, ?_, ?_⟩
  · unfold subelement_with_text
    rw [XElem.children_setChildren]
  · unfold subelement_with_text
    rw [XElem.children_setChildren, XElem.children_setChildren, List.append_assoc]
    rfl
  · obtain ⟨hup, hfound⟩ := cloudsChildren_insert_match root name docker_plugin_version
      server_url ct rt cap c hfind
    refine ⟨insert_docker_unguarded root name docker_plugin_version server_url ct rt cap,
      populate_docker_fields name server_url ct rt cap c, ?_, ?_, hfound, ?_⟩
    · unfold insert_docker; rw [if_pos hroot]
    · unfold countCloudEntries
      rw [hup, length_filter_updateFirst _ _ _
        (fun x => by rw [populate_tag name server_url ct rt cap x])]
    · intro ftag hm
      rw [fieldCount_populate]
      simp only [docker_field_tags] at hm
      fin_cases hm <;> rfl

/-- A cloud entry the search loop does match (its `name` text is the
literal string `name`). -/
def c4_matched_entry : XElem :=
  XElem.mk docker_cloud_tag [] none [XElem.mk "name" [] (some "name") []]

/-- `<hudson><clouds>` holding the matched entry. -/
def c4_root : XElem :=
  XElem.mk "hudson" [] none [XElem.mk "clouds" [] none [c4_matched_entry]]

/-- Witness for C4 at a concrete parent and a concrete matched entry. -/
theorem C4_append_only_fields_witness :
    c4_root.tag = "hudson"
  ∧ (cloudsChildren c4_root).find? dockerPred = some c4_matched_entry
  ∧ ((subelement_with_text (XElem.mk "p" [] none []) "k" "v").children
        = (XElem.mk "p" [] none []).children ++ [XElem.mk "k" [] (some "v") []]
    ∧ (subelement_with_text (subelement_with_text (XElem.mk "p" [] none []) "k" "v")
          "k" "w").children
        = (XElem.mk "p" [] none []).children
            ++ [XElem.mk "k" [] (some "v") [], XElem.mk "k" [] (some "w") []]
    ∧ ∃ t e, insert_docker c4_root "build1" docker_plugin_version "http://d:2376" 0 0 100
          = Except.ok t
        ∧ countCloudEntries t = countCloudEntries c4_root
        ∧ (cloudsChildren t).find? dockerPred = some e
        ∧ ∀ ftag ∈ docker_field_tags,
            fieldCount ftag e = fieldCount ftag c4_matched_entry + 1) :=
  ⟨rfl, rfl,
    C4_append_only_fields (XElem.mk "p" [] none []) "k" "v" "w" c4_root "build1"
      "http://d:2376" 0 0 100 c4_matched_entry rfl rfl⟩

/-- C5: on a `hudson` document in which the search loop matches no
existing entry, one application of `_insert_docker` appends exactly one
new cloud-type entry, carrying the requested name, the empty `templates`
placeholder, `serverUrl`, `connectTimeout`, `readTimeout`, the empty
`credentialsId`, and `containerCap`; with the `capacity` keyword left at
its signature default the `containerCap` text is `100`. -/
theorem C5_fresh_entry_created (root : XElem) (name server_url : String) (ct rt : Int)
    (hroot : root.tag = "hudson") (hnm : hasMatchingEntry root = false) :
    ∃ t, insert_docker root name docker_plugin_version server_url ct rt capacity_default
          = Except.ok t
      ∧ cloudsChildren t
          = cloudsChildren root
              ++ [docker_entry_spec name docker_plugin_version server_url ct rt
                    capacity_default]
      ∧ countCloudEntries t = countCloudEntries root + 1
      ∧ toString capacity_default = "100" := by
  refine ⟨insert_docker_unguarded root name docker_plugin_version server_url ct rt
    capacity_default, ?_, ?_, ?_, rfl⟩
  · unfold insert_docker; rw [if_pos hroot]
  · exact cloudsChildren_insert_no_match root name docker_plugin_version server_url ct rt
      capacity_default hnm
  · unfold countCloudEntries
    rw [cloudsChildren_insert_no_match root name docker_plugin_version server_url ct rt
      capacity_default hnm]
    rw [List.filter_append, List.length_append]
    rfl

/-- Witness for C5 at the concrete document `<hudson/>`. -/
theorem C5_fresh_entry_created_witness :
    (XElem.mk "hudson" [] none []).tag = "hudson"
  ∧ hasMatchingEntry (XElem.mk "hudson" [] none []) = false
  ∧ ∃ t, insert_docker (XElem.mk "hudson" [] none []) "build1" docker_plugin_version
          "http://d:2376" 0 0 capacity_default
        = Except.ok t
      ∧ cloudsChildren t
          = cloudsChildren (XElem.mk "hudson" [] none [])
              ++ [docker_entry_spec "build1" docker_plugin_version "http://d:2376" 0 0
                    capacity_default]
      ∧ countCloudEntries t = countCloudEntries (XElem.mk "hudson" [] none []) + 1
      ∧ toString capacity_default = "100" :=
  ⟨rfl, rfl,
    C5_fresh_entry_created (XElem.mk "hudson" [] none []) "build1" "http://d:2376" 0 0
      rfl rfl⟩

/-- A location-configuration document that already holds two
`adminAddress` children. -/
def c6_two_addresses_doc : XElem :=
  XElem.mk "jenkins.model.JenkinsLocationConfiguration" [] none
    [XElem.mk "adminAddress" [] (some "first@example.com") [],
     XElem.mk "adminAddress" [] (some "second@example.com") []]

/-- C6 counterexample: on a document that starts with two `adminAddress`
elements, applying the admin-email mutator twice with the same address
still leaves two `adminAddress` elements, not exactly one as the claim
states for every document: `_find_or_add` only ever touches the first
match and never removes duplicates. -/
theorem C6_two_existing_elements_persist :
    ((set_admin_email c6_two_addresses_doc "ops@example.com").bind
        (fun t => set_admin_email t "ops@example.com")).map adminCount
      = Except.ok 2
  ∧ (Except.ok 2 : Except PyExn Nat) ≠ Except.ok 1 :=
  ⟨rfl, by intro hcontra; injection hcontra with h; exact absurd h (by decide)⟩

/-- C6 amended: on documents with the expected root tag that satisfy the
documented invariant (at most one `adminAddress` element), the mutator
is idempotent as claimed: two applications leave exactly one
`adminAddress` element, holding the second address (the same-address
case is the instance `b = a`). -/
theorem C6_adminemail_idempotent_on_invariant (root : XElem) (a b : String)
    (htag : root.tag = "jenkins.model.JenkinsLocationConfiguration")
    (hinv : adminCount root ≤ 1) :
    ∃ t1 t2 e, set_admin_email root a = Except.ok t1
      ∧ set_admin_email t1 b = Except.ok t2
      ∧ t2.children.filter (fun c => c.tag == "adminAddress") = [e]
      ∧ e.text = some b := by
  have hf_a : ∀ x : XElem, (x.tag == "adminAddress") = true →
      ((x.setText (some a)).tag == "adminAddress") = true := by
    intro x hx; rw [XElem.tag_setText]; exact hx
  have hf_b : ∀ x : XElem, (x.tag == "adminAddress") = true →
      ((x.setText (some b)).tag == "adminAddress") = true := by
    intro x hx; rw [XElem.tag_setText]; exact hx
  have hguard1 : set_admin_email root a
      = Except.ok (set_admin_email_unguarded root a) := by
    unfold set_admin_email; rw [if_pos htag]
  have htag1 : (set_admin_email_unguarded root a).tag
      = "jenkins.model.JenkinsLocationConfiguration" := by
    unfold set_admin_email_unguarded; rw [tag_mutate_found_child]; exact htag
  have hguard2 : set_admin_email (set_admin_email_unguarded root a) b
      = Except.ok (set_admin_email_unguarded (set_admin_email_unguarded root a) b) := by
    unfold set_admin_email; rw [if_pos htag1]
  by_cases h : root.children.any (fun c => c.tag == "adminAddress") = true
  · obtain ⟨c0, hc0, hfilter1⟩ :=
      filter_updateFirst_singleton _ (fun e => e.setText (some a)) hf_a root.children h hinv
    have ht1c : (set_admin_email_unguarded root a).children
        = updateFirst (fun c => c.tag == "adminAddress") (fun e => e.setText (some a))
            root.children :=
      children_mutate_found_child_pos _ _ _ h
    have hany1 : ((set_admin_email_unguarded root a).children).any
        (fun c => c.tag == "adminAddress") = true := by
      rw [ht1c]
      exact any_eq_true_of_filter_eq_cons _ _ _ _ hfilter1
    have hinv1 : (((set_admin_email_unguarded root a).children).filter
        (fun c => c.tag == "adminAddress")).length ≤ 1 := by
      rw [ht1c, hfilter1]
      exact le_refl 1
    obtain ⟨c1, hc1, hfilter2⟩ :=
      filter_updateFirst_singleton _ (fun e => e.setText (some b)) hf_b
        (set_admin_email_unguarded root a).children hany1 hinv1
    refine ⟨set_admin_email_unguarded root a,
      set_admin_email_unguarded (set_admin_email_unguarded root a) b,
      c1.setText (some b), hguard1, hguard2, ?_, XElem.text_setText _ _⟩
    have ht2c : (set_admin_email_unguarded (set_admin_email_unguarded root a) b).children
        = updateFirst (fun c => c.tag == "adminAddress") (fun e => e.setText (some b))
            (set_admin_email_unguarded root a).children :=
      children_mutate_found_child_pos _ _ _ hany1
    rw [ht2c, hfilter2]
  · have hfalse : root.children.any (fun c => c.tag == "adminAddress") = false := by
      cases hh : root.children.any (fun c => c.tag == "adminAddress")
      · rfl
      · exact absurd hh h
    have ht1c : (set_admin_email_unguarded root a).children
        = root.children ++ [XElem.mk "adminAddress" [] (some a) []] :=
      children_mutate_found_child_neg _ _ _ h
    have hany1 : ((set_admin_email_unguarded root a).children).any
        (fun c => c.tag == "adminAddress") = true := by
      rw [ht1c, List.any_append, hfalse]
      rfl
    have ht2c : (set_admin_email_unguarded (set_admin_email_unguarded root a) b).children
        = updateFirst (fun c => c.tag == "adminAddress") (fun e => e.setText (some b))
            (set_admin_email_unguarded root a).children :=
      children_mutate_found_child_pos _ _ _ hany1
    refine ⟨set_admin_email_unguarded root a,
      set_admin_email_unguarded (set_admin_email_unguarded root a) b,
      XElem.mk "adminAddress" [] (some b) [], hguard1, hguard2, ?_, rfl⟩
    rw [ht2c, ht1c, updateFirst_append_of_any_eq_false _ _ _ _ hfalse,
      List.filter_append, filter_eq_nil_of_any_eq_false _ _ hfalse]
    rfl

/-- Witness for the amended C6: an empty location-configuration
document, first address `ops@example.com`, second `new@example.com`. -/
theorem C6_adminemail_idempotent_on_invariant_witness :
    (XElem.mk "jenkins.model.JenkinsLocationConfiguration" [] none []).tag
        = "jenkins.model.JenkinsLocationConfiguration"
  ∧ adminCount (XElem.mk "jenkins.model.JenkinsLocationConfiguration" [] none []) ≤ 1
  ∧ ∃ t1 t2 e,
      set_admin_email (XElem.mk "jenkins.model.JenkinsLocationConfiguration" [] none [])
          "ops@example.com" = Except.ok t1
      ∧ set_admin_email t1 "new@example.com" = Except.ok t2
      ∧ t2.children.filter (fun c => c.tag == "adminAddress") = [e]
      ∧ e.text = some "new@example.com" :=
  ⟨rfl, by decide,
    C6_adminemail_idempotent_on_invariant
      (XElem.mk "jenkins.model.JenkinsLocationConfiguration" [] none [])
      "ops@example.com" "new@example.com" rfl (by decide)⟩

/-- C7: the `_root_tag` guard runs before any mutation.  On a document
whose root tag differs from the tag the requested mutator expects, the
guarded mutator raises `ValueError` (the SchemaMismatch of the
specification) without touching the tree, the `dockercloud` invocation
on such a document ends with that exception, and its write log is empty,
so the on-disk file keeps its prior bytes. -/
theorem C7_root_tag_guard (tree : XElem) (name server_url conffile addr : String)
    (ct rt cap : Int) (test : Bool)
    (hd : tree.tag ≠ "hudson")
    (ha : tree.tag ≠ "jenkins.model.JenkinsLocationConfiguration") :
    insert_docker tree name docker_plugin_version server_url ct rt cap
        = Except.error (PyExn.valueError "root element is not the <hudson> tag")
  ∧ dockercloud_state name server_url ct rt cap conffile (FileState.parsed tree) test
        = (PyVal.exn (PyExn.valueError "root element is not the <hudson> tag"), [])
  ∧ set_admin_email tree addr
        = Except.error (PyExn.valueError
            "root element is not the <jenkins.model.JenkinsLocationConfiguration> tag") := by
  have h1 : insert_docker tree name docker_plugin_version server_url ct rt cap
      = Except.error (PyExn.valueError "root element is not the <hudson> tag") := by
    unfold insert_docker; rw [if_neg hd]
  refine ⟨h1, ?_, ?_⟩
  · show dockercloud_body name server_url ct rt cap conffile tree test = _
    unfold dockercloud_body
    rw [h1]
  · unfold set_admin_email; rw [if_neg ha]

/-- Witness for C7 at the concrete document `<project/>`. -/
theorem C7_root_tag_guard_witness :
    (XElem.mk "project" [] none []).tag ≠ "hudson"
  ∧ (XElem.mk "project" [] none []).tag ≠ "jenkins.model.JenkinsLocationConfiguration"
  ∧ (insert_docker (XElem.mk "project" [] none []) "build1" docker_plugin_version
        "http://d:2376" 0 0 100
        = Except.error (PyExn.valueError "root element is not the <hudson> tag")
    ∧ dockercloud_state "build1" "http://d:2376" 0 0 100 "config.xml"
        (FileState.parsed (XElem.mk "project" [] none [])) true
        = (PyVal.exn (PyExn.valueError "root element is not the <hudson> tag"), [])
    ∧ set_admin_email (XElem.mk "project" [] none []) "ops@example.com"
        = Except.error (PyExn.valueError
            "root element is not the <jenkins.model.JenkinsLocationConfiguration> tag")) :=
  ⟨by decide, by decide,
    C7_root_tag_guard (XElem.mk "project" [] none []) "build1" "http://d:2376" "config.xml"
      "ops@example.com" 0 0 100 true (by decide) (by decide)⟩

/-- C8: in dry-run mode (`test=True`) no invocation performs a write:
for every file state and every argument, the write log of both state
functions is empty, so the on-disk file is byte-identical before and
after the invocation. -/
theorem C8_dry_run_never_writes (name server_url conffile addr : String)
    (ct rt cap : Int) (file : FileState) :
    (dockercloud_state name server_url ct rt cap conffile file true).2 = []
  ∧ (adminemail_state addr conffile file true).2 = [] := by
  constructor
  · cases file with
    | absent => rfl
    | malformed => rfl
    | parsed tree =>
      show (dockercloud_body name server_url ct rt cap conffile tree true).2 = []
      unfold dockercloud_body
      cases insert_docker tree name docker_plugin_version server_url ct rt cap with
      | error e => rfl
      | ok tree2 => rfl
  · cases file <;> rfl

/-- C9 counterexample: the bytes used for diffing and the bytes the
write step would put on disk differ already on `<hudson/>`: the on-disk
form starts with the XML declaration that `tostring` does not emit. -/
theorem C9_diff_and_disk_bytes_differ :
    xmlpp (XElem.mk "hudson" [] none [])
      ≠ write_config_bytes (XElem.mk "hudson" [] none []) := by
  decide

/-- C9 amended: both serializations use the same pretty renderer, and
they differ exactly by the XML declaration: for every document the
on-disk bytes are the declaration followed by the diff bytes, and the
two are never equal. -/
theorem C9_write_prepends_declaration (tree : XElem) :
    write_config_bytes tree = xml_decl_utf8 ++ xmlpp tree
  ∧ write_config_bytes tree ≠ xmlpp tree := by
  refine ⟨rfl, ?_⟩
  intro h
  have hlen := congrArg String.length h
  rw [write_config_bytes, String.length_append] at hlen
  simp only [xmlpp] at hlen
  have hd : 0 < xml_decl_utf8.length := by decide
  omega

/-- C10 counterexample: with the configuration file absent, `adminemail`
does not fail at `_empty_result`; the `_config_xmltree` wrapper returns
the uninvoked `error_func` function object before the body runs. -/
theorem C10_absent_file_returns_error_func :
    adminemail_state "ops@example.com" "jenkins.model.JenkinsLocationConfiguration.xml"
        FileState.absent false
      = (PyVal.funcObject, []) := rfl

/-- C10 amended: on every input whose configuration file loads, the
first statement of the `adminemail` body, `ret = _empty_result()`,
raises `TypeError` because the required `name` argument is missing; and
on every input whatsoever `adminemail` never returns a ChangeResult
(load failures return the uninvoked error function instead). -/
theorem C10_adminemail_never_returns_result (name conffile : String) (tree : XElem)
    (test : Bool) (file : FileState) :
    adminemail_state name conffile (FileState.parsed tree) test
        = (PyVal.exn (PyExn.typeError "_empty_result() takes exactly 1 argument (0 given)"),
            [])
  ∧ ∀ r : ChangeResult, (adminemail_state name conffile file test).1 ≠ PyVal.result r := by
  constructor
  · rfl
  · intro r h
    cases file with
    | absent => exact PyVal.noConfusion h
    | malformed => exact PyVal.noConfusion h
    | parsed t => exact PyVal.noConfusion h
